import Mathlib

/-!
Shallow embedding of the daily-report pipeline of the telegram-bot-imf
repository: the data model (`src/models`), the analysis client
(`src/services/claude_api_service.py`), the report formatter and delivery
orchestrator (`src/services/report_delivery_service.py`), and the retention
cleanup (`src/repositories/message_repository.py`,
`src/services/cleanup_service.py`).

External effects (database reads, the Anthropic API call, the Telegram bot
send) are passed in as explicit oracle parameters; control flow, counting and
string manipulation are translated from the Python source.  Python `int` is
embedded as `Int` (counters that start at 0 and only increment are `Nat`),
Python `float` as `Rat`, `datetime` values as integer timestamps in seconds,
and `None`/`Optional` as `Option`.  A Python function that can raise is
embedded as returning `Except`.
-/

set_option autoImplicit false

deriving instance DecidableEq for Except

namespace TelegramBotImf

/-- `src/models/message.py`: the `Message` entity.  `timestamp` is seconds on
an absolute timeline; `reactions` is the raw JSON text column. -/
structure Message where
  id : Int
  chat_id : Int
  message_id : Int
  user_id : Int
  user_name : String
  text : String
  timestamp : Int
  reactions : Option String
deriving DecidableEq

/-- `src/models/chat.py`: the `Chat` entity.  `id` is the internal primary
key, `chat_id` the Telegram chat identifier. -/
structure Chat where
  id : Int
  chat_id : Int
  chat_name : String
  enabled : Bool
deriving DecidableEq

/-- `src/services/claude_api_service.py`: pydantic model `QuestionAnalysis`. -/
structure QuestionAnalysis where
  message_id : Int
  text : String
  category : String
  is_answered : Bool
  answer_message_id : Option Int
  response_time_minutes : Option Rat
deriving DecidableEq

/-- `src/services/claude_api_service.py`: pydantic model `AnswerAnalysis`. -/
structure AnswerAnalysis where
  message_id : Int
  text : String
  answers_to_message_id : Option Int
deriving DecidableEq

/-- `src/services/claude_api_service.py`: pydantic model `AnalysisSummary`.
pydantic validates the FIELD TYPES of a parsed response only; no validator
relates `answered`, `unanswered` and `total_questions`. -/
structure AnalysisSummary where
  total_questions : Int
  answered : Int
  unanswered : Int
  avg_response_time_minutes : Option Rat
deriving DecidableEq

/-- `src/services/claude_api_service.py`: pydantic model `AnalysisResult`. -/
structure AnalysisResult where
  questions : List QuestionAnalysis
  answers : List AnswerAnalysis
  summary : AnalysisSummary
deriving DecidableEq

/-- Errors raised by `ClaudeAPIService.analyze_messages`: a transport/service
failure propagated from the API call, or the `Exception("Invalid JSON
response from Claude API")` raised on a parse failure. -/
inductive AnalysisError where
  | invalidJson
  | apiFailure (msg : String)
deriving DecidableEq

/-- Outcome of one Claude API round trip, as seen after `json.loads` plus
pydantic validation: `parsed r` is a response whose text parses as JSON and
type-checks as an `AnalysisResult` `r` (pydantic imposes no cross-field
constraint, so any well-typed `r` can arrive here); `malformed` is a response
that fails to parse; `transportError` is an exception from the API call
itself. -/
inductive ApiResponse where
  | parsed (r : AnalysisResult)
  | malformed
  | transportError (msg : String)
deriving DecidableEq

/-- The zero-valued result `analyze_messages` builds for empty input
(`claude_api_service.py` lines 185-196). -/
def emptyAnalysisResult : AnalysisResult :=
  { questions := []
    answers := []
    summary :=
      { total_questions := 0
        answered := 0
        unanswered := 0
        avg_response_time_minutes := none } }

/-- `ClaudeAPIService.analyze_messages`: empty input returns the zero-valued
result without an external call; otherwise the API response is parsed and
validated, a parse failure raises, and a transport failure propagates. -/
def analyze_messages (messages : List Message) (response : ApiResponse) :
    Except AnalysisError AnalysisResult :=
  if messages.isEmpty then
    Except.ok emptyAnalysisResult
  else
    match response with
    | ApiResponse.parsed r => Except.ok r
    | ApiResponse.malformed => Except.error AnalysisError.invalidJson
    | ApiResponse.transportError m => Except.error (AnalysisError.apiFailure m)

/-- `MessageAnalyzerService.analyze_chat_last_24h`: fetches the trailing
24-hour window and analyzes it; `none` when the window is empty.

`get_messages_since` — Modelled from the spec: the method
`MessageRepository.get_messages_since(chat_id, since)` is called here and
mocked in the unit tests but absent from `message_repository.py`; per the
spec (§4.2, fetch-window(chat id, since timestamp) → ordered sequence) it is
embedded as an oracle returning the chat's messages since the cutoff.
`api_response` is the external model's reply for this chat's window. -/
def analyze_chat_last_24h
    (get_messages_since : Int → Int → List Message)
    (api_response : Int → ApiResponse)
    (now_ts : Int) (chat_id : Int) :
    Except AnalysisError (Option AnalysisResult) :=
  let since := now_ts - 24 * 3600
  let messages := get_messages_since chat_id since
  if messages.isEmpty then
    Except.ok none
  else
    (analyze_messages messages (api_response chat_id)).map some

/-! ### Report formatter (`ReportDeliveryService._format_report`) -/

/-- `ReportDeliveryService.MAX_MESSAGE_LENGTH`. -/
def MAX_MESSAGE_LENGTH : Nat := 4096

/-- The truncation marker appended by `_format_report`. -/
def truncate_marker : String := "\n\n_[Report truncated due to length limit]_"

/-- `str.upper()` on the ASCII category names used by the formatter. -/
def pyUpper (s : String) : String :=
  String.mk (s.toList.map Char.toUpper)

/-- Renders a float with one decimal digit, embedding Python's `f"{v:.1f}"`
for the non-negative response times that occur in reports (the exact
rounding of binary floating point is immaterial to the properties proved,
which do not depend on the digits). -/
def fmt1 (v : Rat) : String :=
  let tenths : Int := round (v * 10)
  toString (tenths / 10) ++ "." ++ toString (tenths % 10)

/-- The `report_lines` list `_format_report` builds before joining
(`report_delivery_service.py` lines 237-287): header, summary, one block per
question, footer.  `now_str` is the injected wall-clock header timestamp.
Python truthiness on the optional floats
(`if analysis.summary.avg_response_time_minutes:`,
`if q.is_answered and q.response_time_minutes:`) treats both `None` and
`0.0` as false. -/
def report_lines (analysis : AnalysisResult) (chat_name now_str : String) :
    List String :=
  let header : List String :=
    ["📊 *Daily Communication Report* #IMFReport",
     "Chat: " ++ chat_name,
     "Period: Last 24 hours",
     "Generated: " ++ now_str,
     "",
     "━━━━━━━━━━━━━━━━━━━━━━━━━━━━",
     ""]
  let summary : List String :=
    ["📈 *Summary*",
     "• Total Questions: " ++ toString analysis.summary.total_questions,
     "• Answered: " ++ toString analysis.summary.answered,
     "• Unanswered: " ++ toString analysis.summary.unanswered] ++
    (match analysis.summary.avg_response_time_minutes with
     | some v =>
       if v = 0 then []
       else ["• Avg Response Time: " ++ fmt1 v ++ " minutes"]
     | none => []) ++
    ["", "━━━━━━━━━━━━━━━━━━━━━━━━━━━━", ""]
  let questions : List String :=
    if analysis.questions.isEmpty then []
    else
      ["❓ *Questions Identified*", ""] ++
      (analysis.questions.enumFrom 1).flatMap (fun iq =>
        let i := iq.1
        let q := iq.2
        let status := if q.is_answered then "✅ Answered" else "⏳ Pending"
        [toString i ++ ". " ++ status ++ " | " ++ pyUpper q.category,
         "   _" ++ q.text ++ "_"] ++
        (match q.response_time_minutes with
         | some v =>
           if q.is_answered ∧ ¬ v = 0 then
             ["   Response time: " ++ fmt1 v ++ " min"]
           else []
         | none => []) ++
        [""])
  let footer : List String :=
    ["━━━━━━━━━━━━━━━━━━━━━━━━━━━━",
     "",
     "_This report was generated automatically by IMF Bot_"]
  header ++ summary ++ questions ++ footer

/-- The `"\n".join(report_lines)` step of `_format_report`. -/
def render_report_text (analysis : AnalysisResult) (chat_name now_str : String) :
    String :=
  String.intercalate "\n" (report_lines analysis chat_name now_str)

/-- `ReportDeliveryService._format_report`: the rendered text, truncated to
`MAX_MESSAGE_LENGTH` with the marker appended whenever it is too long
(`report_delivery_service.py` lines 289-299). -/
def format_report (analysis : AnalysisResult) (chat_name now_str : String) :
    String :=
  let report_text := render_report_text analysis chat_name now_str
  if MAX_MESSAGE_LENGTH < report_text.length then
    let max_len := MAX_MESSAGE_LENGTH - truncate_marker.length
    String.mk (report_text.toList.take max_len) ++ truncate_marker
  else
    report_text

/-! ### Telegram delivery (`ReportDeliveryService._send_telegram_report`) -/

/-- `ReportDeliveryService.MAX_RETRIES`. -/
def MAX_RETRIES : Nat := 3

/-- Outcome of one `bot.send_message` call: success, `RetryAfter` (rate
limit, with the wait the channel requests), `TelegramError`, or any other
unexpected exception. -/
inductive SendOutcome where
  | success
  | retryAfter (wait_seconds : Nat)
  | telegramError (msg : String)
  | unexpectedError (msg : String)
deriving DecidableEq

/-- The attempt loop of `_send_telegram_report` over the remaining attempt
indices (`for attempt in range(MAX_RETRIES)`): success returns immediately;
`RetryAfter` sleeps and retries; `TelegramError` waits the fixed cooldown
and retries; an unexpected error breaks out of the loop; an exhausted loop
returns failure.  The second component counts `bot.send_message` calls
made. -/
def sendLoop (attempt_send : Nat → SendOutcome) : List Nat → Bool × Nat
  | [] => (false, 0)
  | attempt :: rest =>
    match attempt_send attempt with
    | SendOutcome.success => (true, 1)
    | SendOutcome.retryAfter _ =>
      let r := sendLoop attempt_send rest
      (r.1, r.2 + 1)
    | SendOutcome.telegramError _ =>
      let r := sendLoop attempt_send rest
      (r.1, r.2 + 1)
    | SendOutcome.unexpectedError _ => (false, 1)

/-- `ReportDeliveryService._send_telegram_report`: returns whether the send
succeeded together with the number of send attempts made.  `attempt_send`
is the channel's outcome for each attempt index. -/
def send_telegram_report (attempt_send : Nat → SendOutcome) : Bool × Nat :=
  sendLoop attempt_send (List.range MAX_RETRIES)

/-! ### Per-chat processing and the run orchestrator -/

/-- An exception escaping `_process_chat_report` for one chat: an analysis
failure, the `Exception("Report delivery failed for chat …")` raised when
`_send_telegram_report` returns `False`, or a persistence failure while
saving the report after a successful send. -/
inductive RunError where
  | analysisFailed (e : AnalysisError)
  | deliveryFailed (chat_id : Int)
  | persistenceFailed (msg : String)
deriving DecidableEq

/-- `ReportDeliveryService._process_chat_report`: analyze the chat's last
24 hours, skip (return `false`) when there is no analysis or no questions,
otherwise format, deliver, and persist; a persistence failure after the
confirmed send propagates (the `get_db_session` context manager rolls back
and re-raises).

`save_report` — Modelled from the spec: the service builds a `Report`
record and calls `ReportRepository.save_report(report)`, but that method is
absent from `report_repository.py` (and the record fields `generated_at`
and `report_data` are absent from the `Report` model); per the spec (§3
Report lifecycle, §4.5 PERSIST_REPORT, §7 PersistenceError) the step is
embedded as an oracle that persists the chat's report and may fail with a
persistence error. -/
def process_chat_report
    (analyze : Int → Except AnalysisError (Option AnalysisResult))
    (bot_send : Int → String → Nat → SendOutcome)
    (save_report : Int → AnalysisResult → Except String Unit)
    (now_str : String) (chat : Chat) : Except RunError Bool :=
  match analyze chat.id with
  | Except.error e => Except.error (RunError.analysisFailed e)
  | Except.ok none => Except.ok false
  | Except.ok (some analysis) =>
    if analysis.summary.total_questions = 0 then
      Except.ok false
    else
      let report_text := format_report analysis chat.chat_name now_str
      let sent := (send_telegram_report (bot_send chat.chat_id report_text)).1
      if sent then
        match save_report chat.id analysis with
        | Except.error m => Except.error (RunError.persistenceFailed m)
        | Except.ok _ => Except.ok true
      else
        Except.error (RunError.deliveryFailed chat.chat_id)

/-- The `results` dictionary of `generate_daily_reports`. -/
structure RunResults where
  total_chats : Nat
  reports_sent : Nat
  reports_skipped : Nat
  errors : Nat
  failed_chat_ids : List Int
deriving DecidableEq

/-- One iteration of the per-chat loop of `generate_daily_reports` (lines
114-138): a sent report increments `reports_sent`, a skip increments
`reports_skipped`, and any exception is caught, increments `errors` and
appends the chat id to `failed_chat_ids`. -/
def process_outcome (proc : Chat → Except RunError Bool)
    (results : RunResults) (chat : Chat) : RunResults :=
  match proc chat with
  | Except.ok true => { results with reports_sent := results.reports_sent + 1 }
  | Except.ok false =>
    { results with reports_skipped := results.reports_skipped + 1 }
  | Except.error _ =>
    { results with
        errors := results.errors + 1
        failed_chat_ids := results.failed_chat_ids ++ [chat.chat_id] }

/-- The observable outcome of one `generate_daily_reports` run: the returned
summary and the number of `_send_admin_notification` calls made. -/
structure RunOutcome where
  results : RunResults
  admin_notification_calls : Nat
deriving DecidableEq

/-- `ReportDeliveryService.generate_daily_reports`: an empty chat list
returns the zero summary at once (before the escalation check); otherwise
each enabled chat is processed sequentially with per-chat exceptions
contained, and afterwards `_send_admin_notification` is called exactly once
when the failure rate exceeds one half.  The float comparison
`errors / total_chats > 0.5` is embedded exactly as
`total_chats < 2 * errors` (for realistic counts the IEEE quotient compares
to 0.5 the same way the rational does).  `proc` is the per-chat step
`_process_chat_report`. -/
def generate_daily_reports (proc : Chat → Except RunError Bool)
    (enabled_chats : List Chat) : RunOutcome :=
  if enabled_chats.isEmpty then
    { results :=
        { total_chats := 0
          reports_sent := 0
          reports_skipped := 0
          errors := 0
          failed_chat_ids := [] }
      admin_notification_calls := 0 }
  else
    let init : RunResults :=
      { total_chats := enabled_chats.length
        reports_sent := 0
        reports_skipped := 0
        errors := 0
        failed_chat_ids := [] }
    let results := enabled_chats.foldl (process_outcome proc) init
    let calls :=
      if 0 < results.total_chats ∧ results.total_chats < 2 * results.errors
      then 1 else 0
    { results := results, admin_notification_calls := calls }

/-! ### Retention cleanup -/

/-- `MessageRepository.delete_old_messages`: deletes every message with
`timestamp < before_date` (globally, not chat-scoped) and returns the
remaining store together with the number of rows removed. -/
def delete_old_messages (store : List Message) (before_date : Int) :
    List Message × Nat :=
  let remaining := store.filter (fun m => ! decide (m.timestamp < before_date))
  let deleted := store.countP (fun m => decide (m.timestamp < before_date))
  (remaining, deleted)

/-- `CleanupService.cleanup_old_messages` (success path): computes
`cutoff = now - retention_hours` and bulk-deletes everything older. -/
def cleanup_old_messages (message_retention_hours now_ts : Int)
    (store : List Message) : List Message × Nat :=
  delete_old_messages store (now_ts - message_retention_hours * 3600)

/-! ### Delivery retry behaviour (C6, C7) -/

/-- Claim C6: if the outbound channel returns a rate-limit response on the
first send attempt and success on the second, delivery makes exactly 2 send
attempts and reports overall success. -/
theorem send_telegram_report_rate_limit_then_success
    (attempt_send : Nat → SendOutcome) (wait : Nat)
    (h0 : attempt_send 0 = SendOutcome.retryAfter wait)
    (h1 : attempt_send 1 = SendOutcome.success) :
    send_telegram_report attempt_send = (true, 2) := by
  have hr : List.range MAX_RETRIES = [0, 1, 2] := rfl
  rw [send_telegram_report, hr]
  simp [sendLoop, h0, h1]

/-- Witness for C6 at a concrete channel oracle. -/
theorem send_telegram_report_rate_limit_then_success_witness :
    send_telegram_report
      (fun n => if n = 0 then SendOutcome.retryAfter 30 else SendOutcome.success)
      = (true, 2) :=
  send_telegram_report_rate_limit_then_success
    (fun n => if n = 0 then SendOutcome.retryAfter 30 else SendOutcome.success)
    30 rfl rfl

/-- Claim C7: if the outbound channel returns a generic channel error on
every send attempt, delivery makes exactly `MAX_RETRIES` (3) send attempts
and reports overall failure. -/
theorem send_telegram_report_always_error
    (attempt_send : Nat → SendOutcome) (msg : Nat → String)
    (h : ∀ k, k < MAX_RETRIES → attempt_send k = SendOutcome.telegramError (msg k)) :
    send_telegram_report attempt_send = (false, MAX_RETRIES) := by
  have hr : List.range MAX_RETRIES = [0, 1, 2] := rfl
  rw [send_telegram_report, hr]
  simp [sendLoop, h 0 (by decide), h 1 (by decide), h 2 (by decide)]
  rfl

/-- Witness for C7 at a concrete channel oracle. -/
theorem send_telegram_report_always_error_witness :
    send_telegram_report (fun _ => SendOutcome.telegramError "network")
      = (false, MAX_RETRIES) :=
  send_telegram_report_always_error
    (fun _ => SendOutcome.telegramError "network")
    (fun _ => "network") (fun _ _ => rfl)

/-! ### Retention cleanup (C8) -/

/-- Claim C8: for every retention cutoff (here `now_ts - retention·3600`),
after the cleanup run completes no message with a strictly older timestamp
remains in the store, and every message at or after the cutoff that existed
before the run still exists unchanged. -/
theorem cleanup_old_messages_retention
    (message_retention_hours now_ts : Int) (store : List Message) :
    (∀ m ∈ (cleanup_old_messages message_retention_hours now_ts store).1,
        ¬ m.timestamp < now_ts - message_retention_hours * 3600) ∧
    (∀ m ∈ store,
        now_ts - message_retention_hours * 3600 ≤ m.timestamp →
        m ∈ (cleanup_old_messages message_retention_hours now_ts store).1) := by
  constructor
  · intro m hm
    have := List.of_mem_filter hm
    simpa using this
  · intro m hm hts
    refine List.mem_filter.mpr ⟨hm, ?_⟩
    simpa using not_lt_of_ge hts

/-- Witness for C8: a two-message store; the recent message survives the
48-hour cleanup and is indeed not older than the cutoff. -/
theorem cleanup_old_messages_retention_witness :
    (⟨2, 100, 2, 8, "bob", "still here", 1000000, none⟩ : Message) ∈
      (cleanup_old_messages 48 500000
        [⟨1, 100, 1, 7, "alice", "old", 0, none⟩,
         ⟨2, 100, 2, 8, "bob", "still here", 1000000, none⟩]).1 ∧
    ¬ (⟨2, 100, 2, 8, "bob", "still here", 1000000, none⟩ : Message).timestamp
        < 500000 - 48 * 3600 := by
  have h := cleanup_old_messages_retention 48 500000
    [⟨1, 100, 1, 7, "alice", "old", 0, none⟩,
     ⟨2, 100, 2, 8, "bob", "still here", 1000000, none⟩]
  have hmem := h.2 ⟨2, 100, 2, 8, "bob", "still here", 1000000, none⟩
    (by decide) (by decide)
  exact ⟨hmem, h.1 ⟨2, 100, 2, 8, "bob", "still here", 1000000, none⟩ hmem⟩

/-! ### Orchestrator bookkeeping (C1, C10) -/

/-- The per-chat loop never touches `total_chats`. -/
theorem foldl_process_outcome_total (proc : Chat → Except RunError Bool)
    (chats : List Chat) :
    ∀ r : RunResults,
      (List.foldl (process_outcome proc) r chats).total_chats = r.total_chats := by
  induction chats with
  | nil => intro r; rfl
  | cons c rest ih =>
    intro r
    rw [List.foldl_cons, ih]
    unfold process_outcome
    cases proc c with
    | ok b => cases b <;> rfl
    | error e => rfl

/-- Each chat processed adds exactly one to
`reports_sent + reports_skipped + errors`. -/
theorem foldl_process_outcome_sum (proc : Chat → Except RunError Bool)
    (chats : List Chat) :
    ∀ r : RunResults,
      (List.foldl (process_outcome proc) r chats).reports_sent
        + (List.foldl (process_outcome proc) r chats).reports_skipped
        + (List.foldl (process_outcome proc) r chats).errors
      = r.reports_sent + r.reports_skipped + r.errors + chats.length := by
  induction chats with
  | nil => intro r; simp
  | cons c rest ih =>
    intro r
    rw [List.foldl_cons, ih]
    unfold process_outcome
    cases hpc : proc c with
    | ok b => cases b <;> simp <;> omega
    | error e => simp; omega

/-- The error counter and the failed-chat list advance in lockstep. -/
theorem foldl_process_outcome_errors (proc : Chat → Except RunError Bool)
    (chats : List Chat) :
    ∀ r : RunResults,
      (List.foldl (process_outcome proc) r chats).errors
          + r.failed_chat_ids.length
        = r.errors
          + (List.foldl (process_outcome proc) r chats).failed_chat_ids.length := by
  induction chats with
  | nil => intro r; simp
  | cons c rest ih =>
    intro r
    rw [List.foldl_cons]
    have := ih (process_outcome proc r c)
    unfold process_outcome at this ⊢
    cases hpc : proc c with
    | ok b =>
      cases b <;> rw [hpc] at this <;> simpa using this
    | error e =>
      rw [hpc] at this
      simp at this
      simp
      omega

/-- Claim C1: a chat whose processing raises does not abort the run — the
run over `pre ++ c :: post` equals the run that, after the prefix, records
`c.chat_id` at the end of the failed list, increments the error counter by
exactly one, and then still processes every chat of `post`. -/
theorem generate_daily_reports_isolates_failure
    (proc : Chat → Except RunError Bool) (pre post : List Chat)
    (c : Chat) (e : RunError)
    (h : proc c = Except.error e) :
    (generate_daily_reports proc (pre ++ c :: post)).results =
      List.foldl (process_outcome proc)
        (let mid := List.foldl (process_outcome proc)
            { total_chats := (pre ++ c :: post).length
              reports_sent := 0
              reports_skipped := 0
              errors := 0
              failed_chat_ids := [] } pre
         { mid with
             errors := mid.errors + 1
             failed_chat_ids := mid.failed_chat_ids ++ [c.chat_id] }) post := by
  have hne : (pre ++ c :: post).isEmpty = false := by
    cases pre <;> rfl
  unfold generate_daily_reports
  rw [hne]
  simp only [Bool.false_eq_true, if_false, List.foldl_append, List.foldl_cons]
  congr 1
  unfold process_outcome
  rw [h]

/-- The per-chat oracle of the C1 witness run: analysis of the chat with
Telegram id 2 raises, every other chat's report goes out. -/
def procC1Witness : Chat → Except RunError Bool := fun chat =>
  if chat.chat_id = 2 then
    Except.error (RunError.analysisFailed AnalysisError.invalidJson)
  else Except.ok true

/-- Witness for C1: three concrete chats, the middle one failing analysis;
both sides of the decomposition evaluate to the same concrete summary. -/
theorem generate_daily_reports_isolates_failure_witness :
    (generate_daily_reports procC1Witness
        (([⟨1, 1, "a", true⟩] : List Chat)
          ++ (⟨2, 2, "b", true⟩ : Chat) :: ([⟨3, 3, "c", true⟩] : List Chat))).results =
      List.foldl (process_outcome procC1Witness)
        (let mid := List.foldl (process_outcome procC1Witness)
            { total_chats :=
                (([⟨1, 1, "a", true⟩] : List Chat)
                  ++ (⟨2, 2, "b", true⟩ : Chat) :: ([⟨3, 3, "c", true⟩] : List Chat)).length
              reports_sent := 0
              reports_skipped := 0
              errors := 0
              failed_chat_ids := [] } ([⟨1, 1, "a", true⟩] : List Chat)
         { mid with
             errors := mid.errors + 1
             failed_chat_ids := mid.failed_chat_ids ++ [(⟨2, 2, "b", true⟩ : Chat).chat_id] })
        ([⟨3, 3, "c", true⟩] : List Chat) :=
  generate_daily_reports_isolates_failure procC1Witness
    [⟨1, 1, "a", true⟩] [⟨3, 3, "c", true⟩] ⟨2, 2, "b", true⟩
    (RunError.analysisFailed AnalysisError.invalidJson) rfl

/-- Claim C10: over a non-empty chat list the run summary satisfies
`reports_sent + reports_skipped + errors = total_chats` and
`errors = failed_chat_ids.length`. -/
theorem generate_daily_reports_counts (proc : Chat → Except RunError Bool)
    (chats : List Chat) (h : chats ≠ []) :
    (generate_daily_reports proc chats).results.reports_sent
        + (generate_daily_reports proc chats).results.reports_skipped
        + (generate_daily_reports proc chats).results.errors
      = (generate_daily_reports proc chats).results.total_chats ∧
    (generate_daily_reports proc chats).results.errors
      = (generate_daily_reports proc chats).results.failed_chat_ids.length := by
  have hne : chats.isEmpty = false := by
    cases chats with
    | nil => exact absurd rfl h
    | cons c rest => rfl
  unfold generate_daily_reports
  rw [hne]
  simp only [Bool.false_eq_true, if_false]
  set init : RunResults :=
    { total_chats := chats.length
      reports_sent := 0
      reports_skipped := 0
      errors := 0
      failed_chat_ids := [] } with hinit
  have hsum := foldl_process_outcome_sum proc chats init
  have herr := foldl_process_outcome_errors proc chats init
  have htot := foldl_process_outcome_total proc chats init
  rw [hinit] at hsum herr htot
  simp at hsum herr htot
  constructor
  · simp [hsum, htot]
  · simp [herr]

/-- Witness for C10: a single-chat run with a successful send. -/
theorem generate_daily_reports_counts_witness :
    (generate_daily_reports (fun _ => Except.ok true) [⟨1, 10, "w", true⟩]).results.reports_sent
        + (generate_daily_reports (fun _ => Except.ok true) [⟨1, 10, "w", true⟩]).results.reports_skipped
        + (generate_daily_reports (fun _ => Except.ok true) [⟨1, 10, "w", true⟩]).results.errors
      = (generate_daily_reports (fun _ => Except.ok true) [⟨1, 10, "w", true⟩]).results.total_chats ∧
    (generate_daily_reports (fun _ => Except.ok true) [⟨1, 10, "w", true⟩]).results.errors
      = (generate_daily_reports (fun _ => Except.ok true) [⟨1, 10, "w", true⟩]).results.failed_chat_ids.length :=
  generate_daily_reports_counts (fun _ => Except.ok true) [⟨1, 10, "w", true⟩]
    (by decide)

/-! ### Formatter length ceiling (C2) -/

theorem intercalate_go_nil (acc s : String) :
    String.intercalate.go acc s [] = acc := rfl

theorem intercalate_go_cons (acc s a : String) (as : List String) :
    String.intercalate.go acc s (a :: as)
      = String.intercalate.go (acc ++ s ++ a) s as := rfl

/-- The accumulator never shrinks while `String.intercalate.go` runs. -/
theorem length_acc_le_intercalate_go (s : String) (as : List String) :
    ∀ acc : String, acc.length ≤ (String.intercalate.go acc s as).length := by
  induction as with
  | nil => intro acc; rw [intercalate_go_nil]
  | cons a as ih =>
    intro acc
    rw [intercalate_go_cons]
    calc acc.length ≤ (acc ++ s ++ a).length := by
          rw [String.length_append, String.length_append]; omega
      _ ≤ (String.intercalate.go (acc ++ s ++ a) s as).length := ih _

/-- Every pending piece is contained in the final accumulator. -/
theorem length_mem_le_intercalate_go (s x : String) (as : List String)
    (h : x ∈ as) :
    ∀ acc : String, x.length ≤ (String.intercalate.go acc s as).length := by
  induction as with
  | nil => cases h
  | cons a as ih =>
    intro acc
    rw [intercalate_go_cons]
    rcases List.mem_cons.mp h with rfl | hm
    · calc x.length ≤ (acc ++ s ++ x).length := by
            rw [String.length_append, String.length_append]; omega
        _ ≤ _ := length_acc_le_intercalate_go s as _
    · exact ih hm _

/-- A joined string is at least as long as any one of its pieces. -/
theorem length_mem_le_intercalate (sep x : String) (ss : List String)
    (h : x ∈ ss) : x.length ≤ (String.intercalate sep ss).length := by
  cases ss with
  | nil => cases h
  | cons a as =>
    show x.length ≤ (String.intercalate.go a sep as).length
    rcases List.mem_cons.mp h with rfl | hm
    · exact length_acc_le_intercalate_go sep as x
    · exact length_mem_le_intercalate_go sep x as hm a

/-- Claim C2: for every analysis result and chat name the formatted report
has length at most `MAX_MESSAGE_LENGTH` (4096), and whenever the unbounded
rendering exceeds that length the returned text ends with the truncation
marker. -/
theorem format_report_length_bounded (analysis : AnalysisResult)
    (chat_name now_str : String) :
    (format_report analysis chat_name now_str).length ≤ MAX_MESSAGE_LENGTH ∧
    (MAX_MESSAGE_LENGTH < (render_report_text analysis chat_name now_str).length →
      truncate_marker.toList <:+ (format_report analysis chat_name now_str).toList) := by
  have hM : MAX_MESSAGE_LENGTH = 4096 := rfl
  have hm : truncate_marker.length = 42 := rfl
  simp only [format_report]
  generalize render_report_text analysis chat_name now_str = t
  by_cases h : MAX_MESSAGE_LENGTH < t.length
  · rw [if_pos h]
    have htake : (t.toList.take (MAX_MESSAGE_LENGTH - truncate_marker.length)).length
        = MAX_MESSAGE_LENGTH - truncate_marker.length := by
      rw [List.length_take]
      have hlen : t.toList.length = t.length := rfl
      rw [hlen]
      omega
    constructor
    · rw [String.length_append]
      have hmk : (String.mk (t.toList.take
          (MAX_MESSAGE_LENGTH - truncate_marker.length))).length
          = (t.toList.take (MAX_MESSAGE_LENGTH - truncate_marker.length)).length := rfl
      rw [hmk, htake]
      omega
    · intro _
      exact ⟨t.toList.take (MAX_MESSAGE_LENGTH - truncate_marker.length), rfl⟩
  · rw [if_neg h]
    exact ⟨Nat.le_of_not_lt h, fun hc => absurd hc h⟩

/-- An analysis result whose single question carries a 4200-character text,
so the unbounded rendering exceeds the Telegram limit. -/
def longAnalysis : AnalysisResult :=
  { questions :=
      [{ message_id := 1
         text := String.mk (List.replicate 4200 'x')
         category := "technical"
         is_answered := false
         answer_message_id := none
         response_time_minutes := none }]
    answers := []
    summary :=
      { total_questions := 1
        answered := 0
        unanswered := 1
        avg_response_time_minutes := none } }

/-- Witness for C2: on `longAnalysis` the rendering overflows, and the
formatted report is within the limit and ends with the marker. -/
theorem format_report_length_bounded_witness :
    (format_report longAnalysis "Chat" "2025-10-12 10:00 UTC").length ≤ MAX_MESSAGE_LENGTH ∧
    truncate_marker.toList <:+ (format_report longAnalysis "Chat" "2025-10-12 10:00 UTC").toList := by
  have hidx : 17 < (report_lines longAnalysis "Chat" "2025-10-12 10:00 UTC").length := by
    decide
  have hget : (report_lines longAnalysis "Chat" "2025-10-12 10:00 UTC").get ⟨17, hidx⟩
      = "   _" ++ String.mk (List.replicate 4200 'x') ++ "_" := rfl
  have hmem : ("   _" ++ String.mk (List.replicate 4200 'x') ++ "_")
      ∈ report_lines longAnalysis "Chat" "2025-10-12 10:00 UTC" :=
    hget ▸ List.get_mem _ _ _
  have hqlen : ("   _" ++ String.mk (List.replicate 4200 'x') ++ "_").length = 4205 := by
    rw [String.length_append, String.length_append]
    have h1 : ("   _" : String).length = 4 := rfl
    have h2 : (String.mk (List.replicate 4200 'x')).length = 4200 := by
      show (List.replicate 4200 'x').length = 4200
      exact List.length_replicate 4200 'x'
    have h3 : ("_" : String).length = 1 := rfl
    rw [h1, h2, h3]
  have hover : MAX_MESSAGE_LENGTH
      < (render_report_text longAnalysis "Chat" "2025-10-12 10:00 UTC").length := by
    have hle := length_mem_le_intercalate "\n"
      ("   _" ++ String.mk (List.replicate 4200 'x') ++ "_")
      (report_lines longAnalysis "Chat" "2025-10-12 10:00 UTC") hmem
    have hr : render_report_text longAnalysis "Chat" "2025-10-12 10:00 UTC"
        = String.intercalate "\n"
            (report_lines longAnalysis "Chat" "2025-10-12 10:00 UTC") := rfl
    have hM : MAX_MESSAGE_LENGTH = 4096 := rfl
    rw [hr]
    omega
  exact ⟨(format_report_length_bounded longAnalysis "Chat" "2025-10-12 10:00 UTC").1,
    (format_report_length_bounded longAnalysis "Chat" "2025-10-12 10:00 UTC").2 hover⟩

/-! ### End-to-end scenarios (C3, C4) -/

/-- A sample stored message, enough for a non-empty 24-hour window. -/
def msgSample : Message :=
  ⟨1, 1001, 11, 7, "alice", "when is the release?", 100, none⟩

/-- A type-valid analysis with three questions, one answered. -/
def result3Q : AnalysisResult :=
  { questions :=
      [⟨11, "when is the release?", "technical", true, some 12, none⟩,
       ⟨13, "who owns the deploy?", "business", false, none, none⟩,
       ⟨14, "where do we log?", "other", false, none, none⟩]
    answers := [⟨12, "friday", some 11⟩]
    summary := ⟨3, 1, 2, none⟩ }

/-- A type-valid analysis with zero questions. -/
def result0Q : AnalysisResult := ⟨[], [], ⟨0, 0, 0, none⟩⟩

/-- Scenario A window fetch: every chat has messages. -/
def fetchA : Int → Int → List Message := fun _ _ => [msgSample]

/-- Scenario A model replies: chat 1 yields three questions, chat 2 zero. -/
def respA : Int → ApiResponse := fun chat_db_id =>
  if chat_db_id = 1 then ApiResponse.parsed result3Q
  else ApiResponse.parsed result0Q

/-- Claim C3 (scenario A): two enabled chats, chat 1's analysis yields 3
questions and chat 2's yields 0; the run returns total_chats=2,
reports_sent=1, reports_skipped=1, errors=0. -/
theorem generate_daily_reports_scenario_a :
    generate_daily_reports
      (process_chat_report (analyze_chat_last_24h fetchA respA 1000000)
        (fun _ _ _ => SendOutcome.success) (fun _ _ => Except.ok ())
        "2025-10-12 10:00 UTC")
      [⟨1, 1001, "Chat One", true⟩, ⟨2, 1002, "Chat Two", true⟩]
    = { results :=
          { total_chats := 2
            reports_sent := 1
            reports_skipped := 1
            errors := 0
            failed_chat_ids := [] }
        admin_notification_calls := 0 } := by
  decide

/-- Scenario B model replies: chat 1 yields zero questions, the other three
chats raise an analysis error. -/
def respB : Int → ApiResponse := fun chat_db_id =>
  if chat_db_id = 1 then ApiResponse.parsed result0Q
  else ApiResponse.transportError "api down"

/-- Claim C4 (scenario B): four enabled chats, analysis raises for three of
them; the run reports errors=3 with three failed chat ids, and because
3/4 exceeds one half, `_send_admin_notification` is called exactly once. -/
theorem generate_daily_reports_scenario_b :
    generate_daily_reports
      (process_chat_report (analyze_chat_last_24h fetchA respB 1000000)
        (fun _ _ _ => SendOutcome.success) (fun _ _ => Except.ok ())
        "2025-10-12 10:00 UTC")
      [⟨1, 2001, "B1", true⟩, ⟨2, 2002, "B2", true⟩,
       ⟨3, 2003, "B3", true⟩, ⟨4, 2004, "B4", true⟩]
    = { results :=
          { total_chats := 4
            reports_sent := 0
            reports_skipped := 1
            errors := 3
            failed_chat_ids := [2002, 2003, 2004] }
        admin_notification_calls := 1 } := by
  decide

/-! ### Persistence failure after a confirmed send (C5) -/

/-- The chat of the persistence-failure run. -/
def chatE : Chat := ⟨1, 500, "Ops", true⟩

/-- Counterexample to claim C5 as stated: the report message is delivered
(the send oracle always succeeds), then saving the report record fails; the
persistence error propagates out of `_process_chat_report`, so the run
summary counts the chat as an error (`errors = 1`, id 500 in
`failed_chat_ids`) and NOT as a sent report (`reports_sent = 0`). -/
theorem persistence_error_counted_as_error_counterexample :
    process_chat_report
        (analyze_chat_last_24h fetchA (fun _ => ApiResponse.parsed result3Q) 1000000)
        (fun _ _ _ => SendOutcome.success) (fun _ _ => Except.error "db down")
        "2025-10-12 10:00 UTC" chatE
      = Except.error (RunError.persistenceFailed "db down") ∧
    (generate_daily_reports
        (process_chat_report
          (analyze_chat_last_24h fetchA (fun _ => ApiResponse.parsed result3Q) 1000000)
          (fun _ _ _ => SendOutcome.success) (fun _ _ => Except.error "db down")
          "2025-10-12 10:00 UTC")
        [chatE]).results
      = { total_chats := 1
          reports_sent := 0
          reports_skipped := 0
          errors := 1
          failed_chat_ids := [500] } := by
  decide

/-- Claim C5 (amended): after a successful delivery, a persistence error
while saving the report record propagates out of the chat's processing and
the chat is counted as an error (errors incremented, its id recorded in
failed_chat_ids), not as a sent report; the already-delivered message is
not re-sent (the send step is not revisited). -/
theorem process_chat_report_persistence_error
    (analyze : Int → Except AnalysisError (Option AnalysisResult))
    (bot_send : Int → String → Nat → SendOutcome)
    (save : Int → AnalysisResult → Except String Unit)
    (now_str : String) (chat : Chat) (analysis : AnalysisResult)
    (msg : String) (r : RunResults)
    (h1 : analyze chat.id = Except.ok (some analysis))
    (h2 : analysis.summary.total_questions ≠ 0)
    (h3 : (send_telegram_report
        (bot_send chat.chat_id (format_report analysis chat.chat_name now_str))).1
      = true)
    (h4 : save chat.id analysis = Except.error msg) :
    process_chat_report analyze bot_send save now_str chat
      = Except.error (RunError.persistenceFailed msg) ∧
    process_outcome (process_chat_report analyze bot_send save now_str) r chat
      = { r with
            errors := r.errors + 1
            failed_chat_ids := r.failed_chat_ids ++ [chat.chat_id] } := by
  have hp : process_chat_report analyze bot_send save now_str chat
      = Except.error (RunError.persistenceFailed msg) := by
    simp [process_chat_report, h1, h2, h3, h4]
  exact ⟨hp, by unfold process_outcome; rw [hp]⟩

/-- Witness for the amended C5 at concrete oracles. -/
theorem process_chat_report_persistence_error_witness :
    process_chat_report (fun _ => Except.ok (some result3Q))
        (fun _ _ _ => SendOutcome.success) (fun _ _ => Except.error "db down")
        "2025-10-12 10:00 UTC" chatE
      = Except.error (RunError.persistenceFailed "db down") ∧
    process_outcome
        (process_chat_report (fun _ => Except.ok (some result3Q))
          (fun _ _ _ => SendOutcome.success) (fun _ _ => Except.error "db down")
          "2025-10-12 10:00 UTC")
        ⟨1, 0, 0, 0, []⟩ chatE
      = { total_chats := 1
          reports_sent := 0
          reports_skipped := 0
          errors := 1
          failed_chat_ids := [500] } :=
  process_chat_report_persistence_error
    (fun _ => Except.ok (some result3Q)) (fun _ _ _ => SendOutcome.success)
    (fun _ _ => Except.error "db down") "2025-10-12 10:00 UTC" chatE result3Q
    "db down" ⟨1, 0, 0, 0, []⟩ rfl (by decide) rfl rfl

/-! ### Summary consistency and the skip decision (C9) -/

/-- A type-valid API reply whose summary is inconsistent:
`answered + unanswered = 0` but `total_questions = 2`.  pydantic accepts it
(only field types are validated). -/
def badSummaryResult : AnalysisResult :=
  { questions :=
      [⟨21, "what broke?", "technical", true, some 22, none⟩,
       ⟨23, "eta?", "business", false, none, none⟩]
    answers := []
    summary := ⟨2, 0, 0, none⟩ }

/-- The chat of the inconsistent-summary run. -/
def chat9 : Chat := ⟨1, 900, "Nine", true⟩

/-- Counterexample to claim C9 as stated: the analysis pipeline delivers
`badSummaryResult` (a parsed, type-valid API reply), the orchestrator does
not skip it (`total_questions = 2 ≠ 0`), so the formatter consumes it and
the report is sent — yet `answered + unanswered ≠ total_questions`. -/
theorem analysis_summary_invariant_counterexample :
    analyze_chat_last_24h fetchA (fun _ => ApiResponse.parsed badSummaryResult)
        1000000 chat9.id
      = Except.ok (some badSummaryResult) ∧
    process_chat_report
        (analyze_chat_last_24h fetchA (fun _ => ApiResponse.parsed badSummaryResult) 1000000)
        (fun _ _ _ => SendOutcome.success) (fun _ _ => Except.ok ())
        "2025-10-12 10:00 UTC" chat9
      = Except.ok true ∧
    badSummaryResult.summary.answered + badSummaryResult.summary.unanswered
      ≠ badSummaryResult.summary.total_questions := by
  decide

/-- Claim C9 (amended): for a chat whose analysis produced a result, the
orchestrator skips the report if and only if `total_questions = 0`; the
`answered + unanswered = total_questions` invariant is guaranteed only for
the zero-valued result the analysis client builds itself for an empty
window, not for parsed API replies. -/
theorem process_chat_report_skip_iff
    (analyze : Int → Except AnalysisError (Option AnalysisResult))
    (bot_send : Int → String → Nat → SendOutcome)
    (save : Int → AnalysisResult → Except String Unit)
    (now_str : String) (chat : Chat) (analysis : AnalysisResult)
    (response : ApiResponse)
    (h : analyze chat.id = Except.ok (some analysis)) :
    (process_chat_report analyze bot_send save now_str chat = Except.ok false
      ↔ analysis.summary.total_questions = 0) ∧
    analyze_messages [] response = Except.ok emptyAnalysisResult ∧
    emptyAnalysisResult.summary.answered + emptyAnalysisResult.summary.unanswered
      = emptyAnalysisResult.summary.total_questions := by
  refine ⟨?_, rfl, rfl⟩
  have key : process_chat_report analyze bot_send save now_str chat
      = (if analysis.summary.total_questions = 0 then Except.ok false
         else
           if (send_telegram_report
               (bot_send chat.chat_id (format_report analysis chat.chat_name now_str))).1
               = true then
             match save chat.id analysis with
             | Except.error m => Except.error (RunError.persistenceFailed m)
             | Except.ok _ => Except.ok true
           else Except.error (RunError.deliveryFailed chat.chat_id)) := by
    unfold process_chat_report
    rw [h]
  rw [key]
  by_cases h0 : analysis.summary.total_questions = 0
  · rw [if_pos h0]
    simp [h0]
  · rw [if_neg h0]
    refine iff_of_false ?_ h0
    cases hsent : (send_telegram_report
        (bot_send chat.chat_id (format_report analysis chat.chat_name now_str))).1 with
    | false => simp
    | true =>
      cases hsave : save chat.id analysis with
      | error m => simp
      | ok u => simp

/-- Witness for the amended C9: a zero-question analysis is skipped. -/
theorem process_chat_report_skip_iff_witness :
    (process_chat_report (fun _ => Except.ok (some result0Q))
        (fun _ _ _ => SendOutcome.success) (fun _ _ => Except.ok ())
        "2025-10-12 10:00 UTC" chat9
      = Except.ok false ↔ result0Q.summary.total_questions = 0) ∧
    analyze_messages [] ApiResponse.malformed = Except.ok emptyAnalysisResult ∧
    emptyAnalysisResult.summary.answered + emptyAnalysisResult.summary.unanswered
      = emptyAnalysisResult.summary.total_questions :=
  process_chat_report_skip_iff (fun _ => Except.ok (some result0Q))
    (fun _ _ _ => SendOutcome.success) (fun _ _ => Except.ok ())
    "2025-10-12 10:00 UTC" chat9 result0Q ApiResponse.malformed rfl

end TelegramBotImf
